import Mathlib

/-
Shallow embedding of `src/search_acervo_api.py` (classes `LexmlAcervo` and
`XmlToJson`).

The HTTP transport and the XML parsing library are external collaborators:
a call to `requests.get` followed by `loadIntoXml` is modelled by an
`HttpResult` value supplied by the environment, holding whether
`raise_for_status` raised (`httpError`) and the parsed tree of the body.
Of the parsed tree only the parts the client inspects are modelled:
the root element's tag (`rootTag`) and the integer text of the root's
second child, `int(list(tree.getroot())[1].text)`, modelled as the field
`numberOfRecords`.

`print` calls are side effects outside the programmatic contract (the spec
says notices "must not be parsed by callers"), so they are not modelled;
the observables of a call are its return value and the session state.
-/

/-- Whether the first character list is an initial segment of the second. -/
def charsStartWith : List Char → List Char → Bool
  | [], _ => true
  | _ :: _, [] => false
  | a :: as, b :: bs => a == b && charsStartWith as bs

/-- Whether the first character list occurs contiguously in the second. -/
def charsContain (needle : List Char) : List Char → Bool
  | [] => charsStartWith needle []
  | b :: bs => charsStartWith needle (b :: bs) || charsContain needle bs

/-- Boolean substring containment, modelling Python's `needle in hay`. -/
def containsSubstr (needle hay : String) : Bool :=
  charsContain needle.data hay.data

/-- The fragment of a parsed XML tree that the client inspects. -/
structure XmlTree where
  rootTag : String
  numberOfRecords : Int
  deriving DecidableEq

/-- Outcome of one `requests.get` + `loadIntoXml` round trip.
`httpError = true` models `r.raise_for_status()` raising
`requests.exceptions.HTTPError` (a non-2xx status); the body is parsed
into `tree` in both cases, as the source does. -/
structure HttpResult where
  httpError : Bool
  tree : XmlTree
  deriving DecidableEq

/-- Session state of a `LexmlAcervo` instance: the fields set in
`__init__` (the URL constants are omitted: they are compile-time
constants folded into the request construction, which is not observable
here). -/
structure LexmlAcervo where
  containerOfXmlFiles : List XmlTree
  query_string : String
  overall_query_objects_tracker : Int
  total_objects_of_query : Option Int
  completed_query : Bool
  deriving DecidableEq

/-- State produced by `LexmlAcervo.__init__(query_string)`. -/
def LexmlAcervo.init (query_string : String) : LexmlAcervo :=
  { containerOfXmlFiles := []
    query_string := query_string
    overall_query_objects_tracker := 0
    total_objects_of_query := none
    completed_query := false }

/-- Python truthiness of `self.__total_objects_of_query` as used in
`if not self.__total_objects_of_query:`: `None` and `0` are falsy. -/
def pyFalsy : Option Int → Bool
  | none => true
  | some t => t == 0

/-- One call of `LexmlAcervo.query(startRecord, maximumRecordsPerPage)`,
given the `HttpResult` the environment answers with.  Returns the
Python return value (`None` or the triple
`(tree, start_record_next_query, maximumRecordsPerPage)`) together with
the updated session state. -/
def LexmlAcervo.query (s : LexmlAcervo) (startRecord maximumRecordsPerPage : Int)
    (resp : HttpResult) : Option (XmlTree × Int × Int) × LexmlAcervo :=
  -- the `if self.__completed_query: print(...)` guard only prints
  if resp.httpError = true then
    if containsSubstr "diagnostics" resp.tree.rootTag = true then
      -- `parseError` is printed and the function executes `return None`
      (none, s)
    else
      -- no return statement: control falls off the except clause, so the
      -- call returns `None` here as well
      (none, s)
  else
    if containsSubstr "diagnostics" resp.tree.rootTag = true then
      (none, s)
    else
      -- numeroObjetos = int(list(tree.getroot())[1].text)
      (some (resp.tree,
             s.overall_query_objects_tracker + maximumRecordsPerPage + 1,
             maximumRecordsPerPage),
       { s with
          total_objects_of_query :=
            if pyFalsy s.total_objects_of_query = true then
              some resp.tree.numberOfRecords
            else s.total_objects_of_query
          containerOfXmlFiles := s.containerOfXmlFiles ++ [resp.tree]
          overall_query_objects_tracker :=
            s.overall_query_objects_tracker + maximumRecordsPerPage
          completed_query :=
            if resp.tree.numberOfRecords ≤
                s.overall_query_objects_tracker + maximumRecordsPerPage then
              true
            else s.completed_query })

/-- A successful (2xx, non-diagnostics) response reporting `t` total
results. -/
def validResp (t : Int) : HttpResult :=
  { httpError := false, tree := { rootTag := "srw:searchRetrieveResponse", numberOfRecords := t } }

/-- An environment whose server stably answers every request with a
successful response reporting `t` total results. -/
def constEnv (t : Int) : Nat → HttpResult := fun _ => validResp t

/-- State (and forwarded next `startRecord`) after `n` repeated calls of
`query` against environment `env`, each call feeding forward the returned
next start offset and keeping page size `p`, starting from the freshly
constructed session.  On an error outcome the state is kept and the start
offset is left as it was (no further calls would be driven this way; the
environments used below never produce one). -/
def runQuery (env : Nat → HttpResult) (p : Int) : Nat → LexmlAcervo × Int
  | 0 => (LexmlAcervo.init "date=2019", 1)
  | n + 1 =>
    let prev := runQuery env p n
    match prev.1.query prev.2 p (env n) with
    | (some (_, sr, _), s) => (s, sr)
    | (none, s) => (s, prev.2)

/-- Result of a run of `LexmlAcervo.automatic_pagination`, under a fuel
bound on the number of evaluation steps.  `calls` counts the `query`
calls made so far. -/
inductive PagOutcome where
  | done (calls : Nat) (s : LexmlAcervo)
  | typeError (calls : Nat) (s : LexmlAcervo)
  | fuelOut (calls : Nat) (s : LexmlAcervo)
  deriving DecidableEq

/-- True when the run exhausted its fuel (the only way a run fails to
produce a Python-level outcome is by running forever). -/
def PagOutcome.ranOut : PagOutcome → Bool
  | .fuelOut _ _ => true
  | _ => false

/-- `LexmlAcervo.automatic_pagination(startRecord, maximumRecordsPerPage)`:

    while not self.__completed_query:
        tree, startRecord, maximumRecordsPerPage = self.query(...)
        self.automatic_pagination(startRecord, maximumRecordsPerPage)

Each loop iteration and each recursive call consumes one unit of fuel.
When `query` returns `None`, the tuple unpacking raises `TypeError`
(`typeError`).  After a recursive call returns normally, the `while`
condition is re-checked with the updated `startRecord` and page size;
a raised exception propagates. -/
def LexmlAcervo.automatic_pagination (env : Nat → HttpResult) :
    Nat → Nat → LexmlAcervo → Int → Int → PagOutcome
  | 0, calls, s, _, _ => .fuelOut calls s
  | fuel + 1, calls, s, startRecord, maximumRecordsPerPage =>
    if s.completed_query then .done calls s
    else
      match s.query startRecord maximumRecordsPerPage (env calls) with
      | (none, s') => .typeError (calls + 1) s'
      | (some (_, sr', mp'), s') =>
        match LexmlAcervo.automatic_pagination env fuel (calls + 1) s' sr' mp' with
        | .done calls' s'' =>
          LexmlAcervo.automatic_pagination env fuel calls' s'' sr' mp'
        | r => r

namespace XmlToJson

/-- Fixed base of constructed resource URLs (`XmlToJson.__BASE_URL`). -/
def BASE_URL : String := "https://www.lexml.gov.br/urn/"

/-- One result item handed to the `__parseXml` item callback by
`xmltodict.parse` at item depth 5: the named fields the callback looks
up.  (An item missing one of these would raise `KeyError`; the claims
below concern items that are processed, i.e. where every lookup
succeeds.) -/
structure Document where
  tipoDocumento : String
  facet_tipoDocumento : String
  dc_date : String
  urn : String
  localidade : String
  facet_localidade : String
  autoridade : String
  facet_autoridade : String
  dc_title : String
  dc_description : String
  dc_type : String
  dc_identifier : String
  deriving DecidableEq

/-- The flat record built by `__parseXml` for one item (the dict literal
`data`; the duplicate `"facet-tipoDocumento"` key in the source collapses
to one field, same value). -/
structure ExtractedRecord where
  tipoDocumento : String
  facet_tipoDocumento : String
  data : String
  urn : String
  url : String
  localidade : String
  facet_localidade : String
  autoridade : String
  facet_autoridade : String
  title : String
  description : String
  type : String
  identifier : String
  deriving DecidableEq

/-- Body of `XmlToJson.__parseXml` for one document. -/
def parseXml (document : Document) : ExtractedRecord :=
  { tipoDocumento := document.tipoDocumento
    facet_tipoDocumento := document.facet_tipoDocumento
    data := document.dc_date
    urn := document.urn
    url := BASE_URL ++ document.urn
    localidade := document.localidade
    facet_localidade := document.facet_localidade
    autoridade := document.autoridade
    facet_autoridade := document.facet_autoridade
    title := document.dc_title
    description := document.dc_description
    type := document.dc_type
    identifier := document.dc_identifier }

/-- `XmlToJson.parseToJson`: the callback is invoked once per depth-5
item, appending to `container_of_json` in document order; the items the
walk yields are the input list. -/
def parseToJson (documents : List Document) : List ExtractedRecord :=
  documents.map parseXml

end XmlToJson

/-
Reduction lemmas for the three control-flow outcomes of one `query` call.
-/

/-- A call whose HTTP GET raised (non-2xx status) returns `None` and leaves
the session unchanged, whatever the body parsed to. -/
theorem LexmlAcervo.query_httpError (s : LexmlAcervo) (sr p : Int) (resp : HttpResult)
    (h : resp.httpError = true) : s.query sr p resp = (none, s) := by
  simp [LexmlAcervo.query, h]

/-- A call whose response body is a diagnostics document returns `None` and
leaves the session unchanged, whatever the HTTP status was. -/
theorem LexmlAcervo.query_diag (s : LexmlAcervo) (sr p : Int) (resp : HttpResult)
    (h : containsSubstr "diagnostics" resp.tree.rootTag = true) :
    s.query sr p resp = (none, s) := by
  simp [LexmlAcervo.query, h]

/-- A successful non-diagnostics call: the returned triple and the state
update, spelled out. -/
theorem LexmlAcervo.query_valid (s : LexmlAcervo) (sr p : Int) (resp : HttpResult)
    (h1 : resp.httpError = false)
    (h2 : containsSubstr "diagnostics" resp.tree.rootTag = false) :
    s.query sr p resp =
      (some (resp.tree, s.overall_query_objects_tracker + p + 1, p),
       { s with
          total_objects_of_query :=
            if pyFalsy s.total_objects_of_query = true then
              some resp.tree.numberOfRecords
            else s.total_objects_of_query
          containerOfXmlFiles := s.containerOfXmlFiles ++ [resp.tree]
          overall_query_objects_tracker := s.overall_query_objects_tracker + p
          completed_query :=
            if resp.tree.numberOfRecords ≤ s.overall_query_objects_tracker + p then
              true
            else s.completed_query }) := by
  simp [LexmlAcervo.query, h1, h2]

/-- C2: for every response whose root element's tag contains the substring
"diagnostics", `query` returns an error outcome (`None`) and never a page,
and the session state is unchanged by the call: no page is appended and
`consumedCount`, `totalCount` and `completed` keep their previous values. -/
theorem C2_diagnostics_no_page (s : LexmlAcervo) (sr p : Int) (resp : HttpResult)
    (hdiag : containsSubstr "diagnostics" resp.tree.rootTag = true) :
    s.query sr p resp = (none, s) :=
  LexmlAcervo.query_diag s sr p resp hdiag

/-- Witness for C2: a concrete diagnostics response against a fresh
session. -/
theorem C2_diagnostics_no_page_witness :
    (LexmlAcervo.init "date=2019").query 1 10
        { httpError := false, tree := { rootTag := "srw:diagnostics", numberOfRecords := 0 } }
      = (none, LexmlAcervo.init "date=2019") :=
  C2_diagnostics_no_page (LexmlAcervo.init "date=2019") 1 10
    { httpError := false, tree := { rootTag := "srw:diagnostics", numberOfRecords := 0 } }
    (by decide)

/-- C3 counterexample: `totalCount` is set to `0` by a first successful
response reporting zero results (and the first call even completes the
session), yet a second call — made after `completed = true` — overwrites
it with `5`: once set, it does change. -/
theorem C3_counterexample_total_reset :
    ((((LexmlAcervo.init "date=2019").query 1 10 (validResp 0)).2).total_objects_of_query
        = some 0)
  ∧ ((((LexmlAcervo.init "date=2019").query 1 10 (validResp 0)).2).completed_query = true)
  ∧ (((((LexmlAcervo.init "date=2019").query 1 10 (validResp 0)).2).query 11 10
        (validResp 5)).2).total_objects_of_query = some 5 := by
  decide

/-- C3 (amended): once `totalCount` has been set to a nonzero value by a
successful response it never changes for the lifetime of the session, no
matter what totals later responses report and no matter how many further
calls are made; a stored value of `0` is treated as unset by the Python
truthiness test and is overwritten by the next successful response. -/
theorem C3_amended_nonzero_total_stable (s : LexmlAcervo) (sr p : Int)
    (resp : HttpResult) (t : Int) (h : s.total_objects_of_query = some t)
    (ht : t ≠ 0) :
    (s.query sr p resp).2.total_objects_of_query = some t := by
  cases hhttp : resp.httpError with
  | true => rw [LexmlAcervo.query_httpError s sr p resp hhttp]; exact h
  | false =>
    cases hdiag : containsSubstr "diagnostics" resp.tree.rootTag with
    | true => rw [LexmlAcervo.query_diag s sr p resp hdiag]; exact h
    | false =>
      rw [LexmlAcervo.query_valid s sr p resp hhttp hdiag]
      simp [pyFalsy, h, ht]

/-- Witness for C3 (amended): a session whose `totalCount` is `25` keeps
it across a further successful call reporting a different total. -/
theorem C3_amended_nonzero_total_stable_witness :
    (LexmlAcervo.query
        { containerOfXmlFiles := [], query_string := "date=2019",
          overall_query_objects_tracker := 10, total_objects_of_query := some 25,
          completed_query := false }
        11 10 (validResp 7)).2.total_objects_of_query = some 25 :=
  C3_amended_nonzero_total_stable
    { containerOfXmlFiles := [], query_string := "date=2019",
      overall_query_objects_tracker := 10, total_objects_of_query := some 25,
      completed_query := false }
    11 10 (validResp 7) 25 rfl (by decide)

/-- C4 counterexample: a non-2xx response whose body is not a diagnostics
document and a non-2xx response whose body is a diagnostics document
produce literally the same outcome and state at the call boundary (both
return `None`), so the `TransportError` case is not distinguishable from
the `ProtocolError` case. -/
theorem C4_counterexample_indistinguishable :
    ((LexmlAcervo.init "date=2019").query 1 10
        { httpError := true, tree := { rootTag := "html", numberOfRecords := 0 } }
      = (LexmlAcervo.init "date=2019").query 1 10
        { httpError := true, tree := { rootTag := "srw:diagnostics", numberOfRecords := 0 } })
  ∧ ((LexmlAcervo.init "date=2019").query 1 10
        { httpError := true, tree := { rootTag := "html", numberOfRecords := 0 } }).1
      = none := by
  decide

/-- C4 (amended): every HTTP-layer failure is surfaced to the caller as
the explicit bare `None` outcome with the session state unchanged — it is
not silently swallowed into a page — but a non-2xx response whose body is
not a diagnostics document yields exactly the same `None` as a diagnostics
body, so the two error kinds are not distinguishable at the call
boundary. -/
theorem C4_amended_http_error_surfaced (s : LexmlAcervo) (sr p : Int)
    (resp : HttpResult) (h : resp.httpError = true) :
    s.query sr p resp = (none, s) :=
  LexmlAcervo.query_httpError s sr p resp h

/-- Witness for C4 (amended): a concrete non-2xx, non-diagnostics
response. -/
theorem C4_amended_http_error_surfaced_witness :
    (LexmlAcervo.init "date=2019").query 1 10
        { httpError := true, tree := { rootTag := "html", numberOfRecords := 0 } }
      = (none, LexmlAcervo.init "date=2019") :=
  C4_amended_http_error_surfaced (LexmlAcervo.init "date=2019") 1 10
    { httpError := true, tree := { rootTag := "html", numberOfRecords := 0 } } rfl

/-- C5: every successful (non-diagnostics) call with requested page size
`p` increments the cursor by exactly `p` — independent of the response's
contents — and returns the triple of the parsed page, the updated cursor
plus one as next start offset, and the page size used. -/
theorem C5_cursor_increment_and_return (s : LexmlAcervo) (sr p : Int)
    (resp : HttpResult) (hhttp : resp.httpError = false)
    (hdiag : containsSubstr "diagnostics" resp.tree.rootTag = false) :
    (s.query sr p resp).2.overall_query_objects_tracker
        = s.overall_query_objects_tracker + p
  ∧ (s.query sr p resp).1
      = some (resp.tree, (s.query sr p resp).2.overall_query_objects_tracker + 1, p) := by
  rw [LexmlAcervo.query_valid s sr p resp hhttp hdiag]
  exact ⟨rfl, rfl⟩

/-- Witness for C5: fresh session, page size 10, server reporting 25. -/
theorem C5_cursor_increment_and_return_witness :
    ((LexmlAcervo.init "date=2019").query 1 10 (validResp 25)).2.overall_query_objects_tracker
        = (LexmlAcervo.init "date=2019").overall_query_objects_tracker + 10
  ∧ ((LexmlAcervo.init "date=2019").query 1 10 (validResp 25)).1
      = some ((validResp 25).tree,
          ((LexmlAcervo.init "date=2019").query 1 10 (validResp 25)).2.overall_query_objects_tracker + 1,
          10) :=
  C5_cursor_increment_and_return (LexmlAcervo.init "date=2019") 1 10 (validResp 25)
    rfl (by decide)

/-- C6 (code divergence): on a fresh, not-yet-completed session whose
first response is a diagnostics document, `query` yields the error
outcome `None`, and `automatic_pagination` then crashes with a `TypeError`
while unpacking it (after exactly one call, the session untouched),
instead of stopping and propagating the error outcome as specified. -/
theorem C6_error_outcome_type_error :
    LexmlAcervo.automatic_pagination
        (fun _ => { httpError := false,
                    tree := { rootTag := "srw:diagnostics", numberOfRecords := 0 } })
        5 0 (LexmlAcervo.init "date=2019") 1 10
      = PagOutcome.typeError 1 (LexmlAcervo.init "date=2019") := by
  decide

/-- C7: when the first response of a fresh session reports a total of
zero results, that first call sets `completed = true`, and the page is
still appended, so the pages sequence has length one after the call. -/
theorem C7_zero_results_completes (q : String) (p : Int) (resp : HttpResult)
    (hp : 1 ≤ p) (hhttp : resp.httpError = false)
    (hdiag : containsSubstr "diagnostics" resp.tree.rootTag = false)
    (hzero : resp.tree.numberOfRecords = 0) :
    ((LexmlAcervo.init q).query 1 p resp).2.completed_query = true
  ∧ ((LexmlAcervo.init q).query 1 p resp).2.containerOfXmlFiles = [resp.tree] := by
  rw [LexmlAcervo.query_valid (LexmlAcervo.init q) 1 p resp hhttp hdiag]
  refine ⟨?_, rfl⟩
  simp only [LexmlAcervo.init, hzero]
  rw [if_pos (by omega)]

/-- Witness for C7: a concrete zero-result first call. -/
theorem C7_zero_results_completes_witness :
    ((LexmlAcervo.init "date=2019").query 1 10 (validResp 0)).2.completed_query = true
  ∧ ((LexmlAcervo.init "date=2019").query 1 10 (validResp 0)).2.containerOfXmlFiles
      = [(validResp 0).tree] :=
  C7_zero_results_completes "date=2019" 10 (validResp 0) (by decide) rfl (by decide) rfl

/-- C8: a call made when `completed` is already true is not rejected: it
still executes — on a valid response the fetched page is appended — and
it does not corrupt session state: the cursor never decreases (in
particular stays nonnegative) and `completed` never reverts to false.
(`1 ≤ p` is the stated precondition `maximumRecordsPerPage ≥ 1` of
FetchPage.) -/
theorem C8_after_completed_no_corruption (s : LexmlAcervo) (sr p : Int)
    (resp : HttpResult) (hc : s.completed_query = true) (hp : 1 ≤ p) :
    s.overall_query_objects_tracker
        ≤ (s.query sr p resp).2.overall_query_objects_tracker
  ∧ (s.query sr p resp).2.completed_query = true
  ∧ (0 ≤ s.overall_query_objects_tracker →
      0 ≤ (s.query sr p resp).2.overall_query_objects_tracker)
  ∧ (resp.httpError = false →
      containsSubstr "diagnostics" resp.tree.rootTag = false →
      (s.query sr p resp).2.containerOfXmlFiles
        = s.containerOfXmlFiles ++ [resp.tree]) := by
  cases hhttp : resp.httpError with
  | true =>
    rw [LexmlAcervo.query_httpError s sr p resp hhttp]
    exact ⟨le_refl _, hc, fun h => h, fun h => by simp at h⟩
  | false =>
    cases hdiag : containsSubstr "diagnostics" resp.tree.rootTag with
    | true =>
      rw [LexmlAcervo.query_diag s sr p resp hdiag]
      exact ⟨le_refl _, hc, fun h => h, fun _ h => by simp at h⟩
    | false =>
      rw [LexmlAcervo.query_valid s sr p resp hhttp hdiag]
      refine ⟨?_, ?_, ?_, fun _ _ => rfl⟩
      · show s.overall_query_objects_tracker
            ≤ s.overall_query_objects_tracker + p
        omega
      · show (if resp.tree.numberOfRecords ≤
              s.overall_query_objects_tracker + p then true
            else s.completed_query) = true
        simp only [hc]
        split <;> rfl
      · intro h
        show 0 ≤ s.overall_query_objects_tracker + p
        omega

/-- Witness for C8: a completed session (25 objects consumed as 30) hit
with one more valid call. -/
theorem C8_after_completed_no_corruption_witness :
    ({ containerOfXmlFiles := [], query_string := "date=2019",
       overall_query_objects_tracker := 30, total_objects_of_query := some 25,
       completed_query := true } : LexmlAcervo).overall_query_objects_tracker
        ≤ (LexmlAcervo.query
            { containerOfXmlFiles := [], query_string := "date=2019",
              overall_query_objects_tracker := 30, total_objects_of_query := some 25,
              completed_query := true } 31 10 (validResp 25)).2.overall_query_objects_tracker
  ∧ (LexmlAcervo.query
        { containerOfXmlFiles := [], query_string := "date=2019",
          overall_query_objects_tracker := 30, total_objects_of_query := some 25,
          completed_query := true } 31 10 (validResp 25)).2.completed_query = true
  ∧ (0 ≤ ({ containerOfXmlFiles := [], query_string := "date=2019",
            overall_query_objects_tracker := 30, total_objects_of_query := some 25,
            completed_query := true } : LexmlAcervo).overall_query_objects_tracker →
      0 ≤ (LexmlAcervo.query
            { containerOfXmlFiles := [], query_string := "date=2019",
              overall_query_objects_tracker := 30, total_objects_of_query := some 25,
              completed_query := true } 31 10 (validResp 25)).2.overall_query_objects_tracker)
  ∧ ((validResp 25).httpError = false →
      containsSubstr "diagnostics" (validResp 25).tree.rootTag = false →
      (LexmlAcervo.query
          { containerOfXmlFiles := [], query_string := "date=2019",
            overall_query_objects_tracker := 30, total_objects_of_query := some 25,
            completed_query := true } 31 10 (validResp 25)).2.containerOfXmlFiles
        = ({ containerOfXmlFiles := [], query_string := "date=2019",
             overall_query_objects_tracker := 30, total_objects_of_query := some 25,
             completed_query := true } : LexmlAcervo).containerOfXmlFiles
            ++ [(validResp 25).tree]) :=
  C8_after_completed_no_corruption
    { containerOfXmlFiles := [], query_string := "date=2019",
      overall_query_objects_tracker := 30, total_objects_of_query := some 25,
      completed_query := true }
    31 10 (validResp 25) rfl (by decide)

/-- C9: for every result item processed by the extractor, the `url` field
of the produced record is the fixed base `https://www.lexml.gov.br/urn/`
concatenated with the item's `urn`; in particular an item with urn
`urn:lex:br:federal:lei:2019` yields the example url of the spec. -/
theorem C9_url_construction :
    (∀ document : XmlToJson.Document,
        (XmlToJson.parseXml document).url = "https://www.lexml.gov.br/urn/" ++ document.urn)
  ∧ ((XmlToJson.parseToJson
        [{ tipoDocumento := "Lei", facet_tipoDocumento := "Lei",
           dc_date := "2019-01-01", urn := "urn:lex:br:federal:lei:2019",
           localidade := "Brasil", facet_localidade := "Brasil",
           autoridade := "federal", facet_autoridade := "federal",
           dc_title := "t", dc_description := "d", dc_type := "Lei",
           dc_identifier := "i" }]).map XmlToJson.ExtractedRecord.url
      = ["https://www.lexml.gov.br/urn/urn:lex:br:federal:lei:2019"]) :=
  ⟨fun _ => rfl, by decide⟩

/-- Unfolding of one repeated-call step when the underlying call
succeeds. -/
theorem runQuery_succ (env : Nat → HttpResult) (p : Int) (n : Nat)
    (tr : XmlTree) (sr' mp : Int) (s : LexmlAcervo)
    (h : (runQuery env p n).1.query (runQuery env p n).2 p (env n)
          = (some (tr, sr', mp), s)) :
    runQuery env p (n + 1) = (s, sr') := by
  simp only [runQuery, h]

/-- The canned successful response is accepted by `query`. -/
theorem validResp_ok (t : Int) :
    (validResp t).httpError = false
  ∧ containsSubstr "diagnostics" (validResp t).tree.rootTag = false
  ∧ (validResp t).tree.numberOfRecords = t :=
  ⟨rfl, rfl, rfl⟩

/-- The stable environment's responses, phrased on `constEnv` itself. -/
theorem constEnv_ok (t : Int) (k : Nat) :
    (constEnv t k).httpError = false
  ∧ containsSubstr "diagnostics" (constEnv t k).tree.rootTag = false
  ∧ (constEnv t k).tree.numberOfRecords = t :=
  ⟨rfl, rfl, rfl⟩

/-- Against a stable server reporting `t ≥ 1` total results, after `n`
repeated calls with page size `p` the cursor is exactly `n * p` and the
session is completed exactly when `t ≤ n * p`. -/
theorem runQuery_tracker_completed (t : Int) (p : Nat) (ht : 1 ≤ t) (n : Nat) :
    (runQuery (constEnv t) (p : Int) n).1.overall_query_objects_tracker
        = (n : Int) * (p : Int)
  ∧ (runQuery (constEnv t) (p : Int) n).1.completed_query
      = decide (t ≤ (n : Int) * (p : Int)) := by
  induction n with
  | zero =>
    refine ⟨by simp [runQuery, LexmlAcervo.init], ?_⟩
    simp only [runQuery, LexmlAcervo.init, Nat.cast_zero, zero_mul]
    rw [decide_eq_false (by omega)]
  | succ n ih =>
    obtain ⟨ih1, ih2⟩ := ih
    have hq := LexmlAcervo.query_valid (runQuery (constEnv t) (p : Int) n).1
      (runQuery (constEnv t) (p : Int) n).2 (p : Int) (constEnv t n)
      (constEnv_ok t n).1 (constEnv_ok t n).2.1
    rw [runQuery_succ _ _ _ _ _ _ _ hq]
    constructor
    · show (runQuery (constEnv t) (p : Int) n).1.overall_query_objects_tracker
          + (p : Int) = ((n + 1 : Nat) : Int) * (p : Int)
      rw [ih1]; push_cast; ring
    · show (if (constEnv t n).tree.numberOfRecords ≤
            (runQuery (constEnv t) (p : Int) n).1.overall_query_objects_tracker
              + (p : Int) then true
          else (runQuery (constEnv t) (p : Int) n).1.completed_query)
        = decide (t ≤ ((n + 1 : Nat) : Int) * (p : Int))
      rw [ih1, ih2, (constEnv_ok t n).2.2]
      have hcast : ((n + 1 : Nat) : Int) * (p : Int) = (n : Int) * (p : Int) + (p : Int) := by
        push_cast; ring
      rw [hcast]
      have hp0 : (0 : Int) ≤ (p : Int) := by positivity
      generalize (n : Int) * (p : Int) = a at *
      split_ifs with h
      · exact (decide_eq_true h).symm
      · rw [decide_eq_false h, decide_eq_false (by omega)]

/-- C1 counterexample: with the server stably reporting `T = 0` total
results and page size `P = 1`, the session is not completed after
`ceil(T/P) = 0` calls (it takes the first call to complete it), so the
claimed call count fails at `T = 0`. -/
theorem C1_counterexample_zero_total :
    ((runQuery (constEnv 0) 1 ((0 + 1 - 1) / 1)).1.completed_query = false)
  ∧ ((runQuery (constEnv 0) 1 1).1.completed_query = true) := by
  decide

/-- C1 (amended): for a stable total `T ≥ 1` and page size `P ≥ 1`,
repeated calls reach `completed = true` after exactly `ceil(T/P)` calls
(completed then, not yet one call earlier), and the final cursor value is
`≥ T`; for `T = 0` one call — not `ceil(0/P) = 0` calls — completes the
session. -/
theorem C1_amended_call_count (T P : Nat) (hT : 1 ≤ T) (hP : 1 ≤ P) :
    ((runQuery (constEnv (T : Int)) (P : Int) ((T + P - 1) / P)).1.completed_query = true)
  ∧ ((runQuery (constEnv (T : Int)) (P : Int) ((T + P - 1) / P - 1)).1.completed_query = false)
  ∧ ((T : Int) ≤ (runQuery (constEnv (T : Int)) (P : Int)
        ((T + P - 1) / P)).1.overall_query_objects_tracker)
  ∧ ((runQuery (constEnv 0) (P : Int) 1).1.completed_query = true) := by
  have ht : (1 : Int) ≤ (T : Int) := by exact_mod_cast hT
  have hc1 : (T + P - 1) / P = (T - 1) / P + 1 := by
    have h : T + P - 1 = (T - 1) + P := by omega
    rw [h, Nat.add_div_right _ (by omega)]
  have hkey1 : T ≤ ((T + P - 1) / P) * P := by
    rw [hc1]
    have h1 := Nat.div_add_mod (T - 1) P
    have h2 : (T - 1) % P < P := Nat.mod_lt _ (by omega)
    have h3 : ((T - 1) / P + 1) * P = P * ((T - 1) / P) + P := by ring
    rw [h3]
    generalize hm : P * ((T - 1) / P) = m at h1
    omega
  have hkey2 : ((T + P - 1) / P - 1) * P < T := by
    rw [hc1]
    have h1 : (T - 1) / P * P ≤ T - 1 := Nat.div_mul_le_self _ _
    simp only [Nat.add_sub_cancel]
    generalize hm : (T - 1) / P * P = m at h1 ⊢
    omega
  obtain ⟨tr1, cp1⟩ := runQuery_tracker_completed (T : Int) P ht ((T + P - 1) / P)
  obtain ⟨tr2, cp2⟩ := runQuery_tracker_completed (T : Int) P ht ((T + P - 1) / P - 1)
  refine ⟨?_, ?_, ?_, ?_⟩
  · rw [cp1]
    exact decide_eq_true (by exact_mod_cast hkey1)
  · rw [cp2]
    refine decide_eq_false (fun hcon => ?_)
    have : T ≤ ((T + P - 1) / P - 1) * P := by exact_mod_cast hcon
    omega
  · rw [tr1]
    exact_mod_cast hkey1
  · have hq := LexmlAcervo.query_valid (runQuery (constEnv 0) (P : Int) 0).1
      (runQuery (constEnv 0) (P : Int) 0).2 (P : Int) (constEnv 0 0)
      (constEnv_ok 0 0).1 (constEnv_ok 0 0).2.1
    rw [runQuery_succ _ _ _ _ _ _ _ hq]
    show (if (constEnv 0 0).tree.numberOfRecords ≤
          (runQuery (constEnv 0) (P : Int) 0).1.overall_query_objects_tracker
            + (P : Int) then true
        else (runQuery (constEnv 0) (P : Int) 0).1.completed_query) = true
    rw [(constEnv_ok 0 0).2.2]
    rw [if_pos]
    show (0 : Int) ≤ 0 + (P : Int)
    positivity

/-- Witness for C1 (amended): the spec's example scenario, `T = 25`,
`P = 10`: three calls complete, two do not, and the final cursor is 30. -/
theorem C1_amended_call_count_witness :
    ((runQuery (constEnv ((25 : Nat) : Int)) ((10 : Nat) : Int)
        ((25 + 10 - 1) / 10)).1.completed_query = true)
  ∧ ((runQuery (constEnv ((25 : Nat) : Int)) ((10 : Nat) : Int)
        ((25 + 10 - 1) / 10 - 1)).1.completed_query = false)
  ∧ (((25 : Nat) : Int) ≤ (runQuery (constEnv ((25 : Nat) : Int)) ((10 : Nat) : Int)
        ((25 + 10 - 1) / 10)).1.overall_query_objects_tracker)
  ∧ ((runQuery (constEnv 0) ((10 : Nat) : Int) 1).1.completed_query = true) :=
  C1_amended_call_count 25 10 (by decide) (by decide)

/-- Unfolding of one `automatic_pagination` step on a not-yet-completed
session whose `query` call succeeds. -/
theorem autoPag_succ_valid (env : Nat → HttpResult) (fuel calls : Nat)
    (s : LexmlAcervo) (sr mp : Int) (tr : XmlTree) (sr' mp' : Int)
    (s' : LexmlAcervo) (hc : s.completed_query = false)
    (hq : s.query sr mp (env calls) = (some (tr, sr', mp'), s')) :
    LexmlAcervo.automatic_pagination env (fuel + 1) calls s sr mp
      = match LexmlAcervo.automatic_pagination env fuel (calls + 1) s' sr' mp' with
        | .done calls' s'' =>
          LexmlAcervo.automatic_pagination env fuel calls' s'' sr' mp'
        | r => r := by
  simp [LexmlAcervo.automatic_pagination, hc, hq]

/-- Driving `automatic_pagination` with page size `0` against a stable
server reporting `t ≥ 1` results never returns: every amount of fuel is
exhausted, because each call keeps the cursor strictly below the total
and so never sets `completed`. -/
theorem autoPag_zero_page_never_returns (t : Int) (ht : 1 ≤ t) :
    ∀ (fuel calls : Nat) (sr : Int) (s : LexmlAcervo),
      s.completed_query = false →
      s.overall_query_objects_tracker < t →
      (LexmlAcervo.automatic_pagination (constEnv t) fuel calls s sr 0).ranOut = true := by
  intro fuel
  induction fuel with
  | zero => intro calls sr s hc htr; rfl
  | succ fuel ih =>
    intro calls sr s hc htr
    obtain ⟨h1, h2, h3⟩ := constEnv_ok t calls
    set sNxt : LexmlAcervo :=
      { s with
        total_objects_of_query :=
          if pyFalsy s.total_objects_of_query = true then
            some (constEnv t calls).tree.numberOfRecords
          else s.total_objects_of_query
        containerOfXmlFiles := s.containerOfXmlFiles ++ [(constEnv t calls).tree]
        overall_query_objects_tracker := s.overall_query_objects_tracker + 0
        completed_query :=
          if (constEnv t calls).tree.numberOfRecords ≤
              s.overall_query_objects_tracker + 0 then
            true
          else s.completed_query } with hsdef
    have hq : s.query sr 0 (constEnv t calls)
        = (some ((constEnv t calls).tree,
            s.overall_query_objects_tracker + 0 + 1, 0), sNxt) := by
      rw [LexmlAcervo.query_valid s sr 0 (constEnv t calls) h1 h2, hsdef]
    rw [autoPag_succ_valid (constEnv t) fuel calls s sr 0 (constEnv t calls).tree
          (s.overall_query_objects_tracker + 0 + 1) 0 sNxt hc hq]
    have hsc : sNxt.completed_query = false := by
      rw [hsdef]
      show (if (constEnv t calls).tree.numberOfRecords ≤
            s.overall_query_objects_tracker + 0 then true
          else s.completed_query) = false
      rw [h3, if_neg (by omega)]
      exact hc
    have hst : sNxt.overall_query_objects_tracker < t := by
      rw [hsdef]
      show s.overall_query_objects_tracker + 0 < t
      omega
    have hin := ih (calls + 1) (s.overall_query_objects_tracker + 0 + 1) sNxt hsc hst
    cases hcase : LexmlAcervo.automatic_pagination (constEnv t) fuel (calls + 1) sNxt
        (s.overall_query_objects_tracker + 0 + 1) 0 with
    | done c s2 => rw [hcase] at hin; simp [PagOutcome.ranOut] at hin
    | typeError c s2 => rw [hcase] at hin; simp [PagOutcome.ranOut] at hin
    | fuelOut c s2 => rfl

/-- C10: `query` does not enforce its stated preconditions: against a
server reporting a positive total `t`, a call with
`maximumRecordsPerPage = 0` still performs the fetch and appends a page,
but leaves the cursor unchanged and does not set `completed`; driving
`automatic_pagination` with page size 0 therefore makes no progress and
never terminates (it exhausts every amount of fuel). -/
theorem C10_zero_page_size_no_progress (t : Int) (ht : 1 ≤ t) :
    (∀ (s : LexmlAcervo) (sr : Int) (resp : HttpResult),
        resp.httpError = false →
        containsSubstr "diagnostics" resp.tree.rootTag = false →
        resp.tree.numberOfRecords = t →
        s.overall_query_objects_tracker < t →
        (s.query sr 0 resp).2.overall_query_objects_tracker
            = s.overall_query_objects_tracker
      ∧ (s.query sr 0 resp).2.completed_query = s.completed_query
      ∧ (s.query sr 0 resp).2.containerOfXmlFiles
          = s.containerOfXmlFiles ++ [resp.tree]
      ∧ (s.query sr 0 resp).1 ≠ none)
  ∧ (∀ (fuel calls : Nat) (sr : Int) (s : LexmlAcervo),
        s.completed_query = false →
        s.overall_query_objects_tracker < t →
        (LexmlAcervo.automatic_pagination (constEnv t) fuel calls s sr 0).ranOut
          = true) := by
  constructor
  · intro s sr resp hh hd hnum htr
    rw [LexmlAcervo.query_valid s sr 0 resp hh hd]
    refine ⟨?_, ?_, rfl, by simp⟩
    · show s.overall_query_objects_tracker + 0 = s.overall_query_objects_tracker
      omega
    · show (if resp.tree.numberOfRecords ≤
            s.overall_query_objects_tracker + 0 then true
          else s.completed_query) = s.completed_query
      rw [hnum, if_neg (by omega)]
  · exact autoPag_zero_page_never_returns t ht

/-- Witness for C10: total 3, page size 0, a fresh session: one call
leaves the cursor at 0 and `completed` false while appending the page,
and five units of fuel are exhausted without returning. -/
theorem C10_zero_page_size_no_progress_witness :
    (((LexmlAcervo.init "date=2019").query 1 0 (validResp 3)).2.overall_query_objects_tracker
        = (LexmlAcervo.init "date=2019").overall_query_objects_tracker
      ∧ ((LexmlAcervo.init "date=2019").query 1 0 (validResp 3)).2.completed_query
          = (LexmlAcervo.init "date=2019").completed_query
      ∧ ((LexmlAcervo.init "date=2019").query 1 0 (validResp 3)).2.containerOfXmlFiles
          = (LexmlAcervo.init "date=2019").containerOfXmlFiles ++ [(validResp 3).tree]
      ∧ ((LexmlAcervo.init "date=2019").query 1 0 (validResp 3)).1 ≠ none)
  ∧ (LexmlAcervo.automatic_pagination (constEnv 3) 5 0
        (LexmlAcervo.init "date=2019") 1 0).ranOut = true :=
  ⟨(C10_zero_page_size_no_progress 3 (by decide)).1 (LexmlAcervo.init "date=2019") 1
      (validResp 3) rfl (by decide) rfl (by decide),
   (C10_zero_page_size_no_progress 3 (by decide)).2 5 0 1
      (LexmlAcervo.init "date=2019") rfl (by decide)⟩
